import Mathlib

/-!
Verification development for the cryptonumbers browser script
(src/script.js).  The script installs a click handler that reads two
symbol strings, issues two sequential HTTP GET requests to the Binance
24hr-ticker endpoint, parses both bodies as JSON, divides the two
quoteVolume fields as JavaScript numbers, formats the quotient with
toFixed(2) and writes one line to the display element, or writes the
literal error string when any step throws.

Modelling conventions.  JavaScript doubles are modelled by exact
rationals extended with NaN and the two infinities; the negative zero
of IEEE arithmetic is identified with zero, and the branch of
Number.prototype.toFixed that falls back to exponential notation for
magnitudes at or above 10^21 is outside the modelled range (ticker
ratios are far below it).  The platform pieces (fetch, JSON.parse, the
DOM) are modelled abstractly: a fetch outcome is either a rejection or
a response carrying a status and a body, where the body is given as
the optional JSON document it parses to (none meaning a body that is
not valid JSON, so that response.json() rejects).  The display element
and the input fields are assumed present, as in the pages index.html
provides.
-/

/-- JSON documents, as produced by JSON.parse: null, booleans, numbers,
strings, arrays and objects (an object keeps its fields in source
order; on duplicate keys JSON.parse keeps the last one). -/
inductive JsonValue : Type
  | jnull : JsonValue
  | jbool : Bool → JsonValue
  | jnum : ℚ → JsonValue
  | jstr : String → JsonValue
  | jarr : List JsonValue → JsonValue
  | jobj : List (String × JsonValue) → JsonValue

/-- JavaScript numbers: NaN, the two infinities, and finite values
modelled by exact rationals (negative zero is identified with zero). -/
inductive JsNumber : Type
  | nan : JsNumber
  | posInf : JsNumber
  | negInf : JsNumber
  | finite : ℚ → JsNumber
deriving DecidableEq

/-- A JavaScript value as it appears after a property read on parsed
JSON: either undefined (missing field) or a JSON value. -/
inductive JsValue : Type
  | undef : JsValue
  | ofJson : JsonValue → JsValue

/-- The error values the handler can catch: a rejected fetch, a body
that fails JSON parsing, and the TypeError of a property read on
null. -/
inductive JsError : Type
  | fetchRejected : JsError
  | jsonParseError : JsError
  | typeError : JsError
deriving DecidableEq

/-- JavaScript whitespace accepted and trimmed by ToNumber on strings
(space, tab, line break, carriage return, vertical tab, form feed,
no-break space, BOM). -/
def jsWhitespace (c : Char) : Bool :=
  c == ' ' || c == '\t' || c == '\n' || c == '\r' ||
    c.toNat == 11 || c.toNat == 12 || c.toNat == 160 || c.toNat == 0xFEFF

/-- Strip JavaScript whitespace from both ends of a character list. -/
def trimJs (cs : List Char) : List Char :=
  ((cs.dropWhile jsWhitespace).reverse.dropWhile jsWhitespace).reverse

/-- Value of a decimal digit character. -/
def decDigitVal? (c : Char) : Option ℕ :=
  if c.isDigit then some (c.toNat - 48) else none

/-- Value of a hexadecimal digit character. -/
def hexDigitVal? (c : Char) : Option ℕ :=
  if c.isDigit then some (c.toNat - 48)
  else if 'a' ≤ c ∧ c ≤ 'f' then some (c.toNat - 87)
  else if 'A' ≤ c ∧ c ≤ 'F' then some (c.toNat - 55)
  else none

/-- Value of an octal digit character. -/
def octDigitVal? (c : Char) : Option ℕ :=
  if '0' ≤ c ∧ c ≤ '7' then some (c.toNat - 48) else none

/-- Value of a binary digit character. -/
def binDigitVal? (c : Char) : Option ℕ :=
  if c == '0' then some 0 else if c == '1' then some 1 else none

/-- Read a nonempty digit string in the given base; none when empty or
when any character is not a digit of that base. -/
def digitsVal? (base : ℕ) (dv : Char → Option ℕ) (cs : List Char) : Option ℕ :=
  match cs with
  | [] => none
  | _ => cs.foldlM (fun acc c => (dv c).map (fun d => acc * base + d)) 0

/-- Read the unsigned mantissa of a decimal literal: digits, digits
followed by a point and optional digits, or a point followed by
digits. -/
def parseMantissa? (cs : List Char) : Option ℚ :=
  let ip := cs.takeWhile (fun c => c != '.')
  let rest := cs.dropWhile (fun c => c != '.')
  match rest with
  | [] => (digitsVal? 10 decDigitVal? ip).map (fun n => (n : ℚ))
  | _ :: fp =>
    if ip.isEmpty ∧ fp.isEmpty then none
    else
      let ipv : Option ℕ := if ip.isEmpty then some 0 else digitsVal? 10 decDigitVal? ip
      let fpv : Option ℕ := if fp.isEmpty then some 0 else digitsVal? 10 decDigitVal? fp
      match ipv, fpv with
      | some i, some f => some ((i : ℚ) + (f : ℚ) / (10 : ℚ) ^ fp.length)
      | _, _ => none

/-- Read the signed integer after the exponent marker of a decimal
literal. -/
def parseExponent? (cs : List Char) : Option ℤ :=
  match cs with
  | '+' :: ds => (digitsVal? 10 decDigitVal? ds).map (fun n => (n : ℤ))
  | '-' :: ds => (digitsVal? 10 decDigitVal? ds).map (fun n => -(n : ℤ))
  | ds => (digitsVal? 10 decDigitVal? ds).map (fun n => (n : ℤ))

/-- Read an unsigned decimal literal with an optional exponent part. -/
def parseDec? (cs : List Char) : Option ℚ :=
  let m := cs.takeWhile (fun c => !(c == 'e' || c == 'E'))
  let rest := cs.dropWhile (fun c => !(c == 'e' || c == 'E'))
  match rest with
  | [] => parseMantissa? m
  | _ :: ex => do
    let q ← parseMantissa? m
    let e ← parseExponent? ex
    pure (q * (10 : ℚ) ^ e)

/-- ToNumber on a string: trim JavaScript whitespace; the empty string
is 0; Infinity with an optional sign; a hex, octal or binary literal
(no sign allowed); otherwise an optionally signed decimal literal; NaN
when nothing matches. -/
def stringToNumber (s : String) : JsNumber :=
  match trimJs s.data with
  | [] => JsNumber.finite 0
  | cs =>
    if cs = "Infinity".data ∨ cs = "+Infinity".data then JsNumber.posInf
    else if cs = "-Infinity".data then JsNumber.negInf
    else
      match cs with
      | '0' :: c :: ds =>
        if c == 'x' || c == 'X' then
          (digitsVal? 16 hexDigitVal? ds).elim JsNumber.nan (fun n => JsNumber.finite n)
        else if c == 'o' || c == 'O' then
          (digitsVal? 8 octDigitVal? ds).elim JsNumber.nan (fun n => JsNumber.finite n)
        else if c == 'b' || c == 'B' then
          (digitsVal? 2 binDigitVal? ds).elim JsNumber.nan (fun n => JsNumber.finite n)
        else (parseDec? ('0' :: c :: ds)).elim JsNumber.nan JsNumber.finite
      | '+' :: ds => (parseDec? ds).elim JsNumber.nan JsNumber.finite
      | '-' :: ds => (parseDec? ds).elim JsNumber.nan (fun q => JsNumber.finite (-q))
      | _ => (parseDec? cs).elim JsNumber.nan JsNumber.finite

/-- ToNumber of an array value, through its Array.prototype.toString
join: the empty array gives 0; a one-element array coerces its element
(null to the empty string hence 0, numbers and numeric strings to
their value, booleans and objects to non-numeric text hence NaN,
nested arrays recursively); an array of two or more elements joins
with commas, which never reads as a number, hence NaN. -/
def arrToNumber : JsonValue → JsNumber
  | JsonValue.jarr [] => JsNumber.finite 0
  | JsonValue.jarr [x] =>
    match x with
    | JsonValue.jnull => JsNumber.finite 0
    | JsonValue.jnum q => JsNumber.finite q
    | JsonValue.jstr s => stringToNumber s
    | JsonValue.jbool _ => JsNumber.nan
    | JsonValue.jobj _ => JsNumber.nan
    | JsonValue.jarr es => arrToNumber (JsonValue.jarr es)
  | _ => JsNumber.nan

/-- ToNumber on a JavaScript value read from parsed JSON: undefined is
NaN, null is 0, booleans are 0 and 1, numbers are themselves, strings
parse as numeric literals, plain objects stringify to non-numeric text
hence NaN, arrays coerce through their join. -/
def JsValue.toNumber : JsValue → JsNumber
  | JsValue.undef => JsNumber.nan
  | JsValue.ofJson JsonValue.jnull => JsNumber.finite 0
  | JsValue.ofJson (JsonValue.jbool b) => JsNumber.finite (if b then 1 else 0)
  | JsValue.ofJson (JsonValue.jnum q) => JsNumber.finite q
  | JsValue.ofJson (JsonValue.jstr s) => stringToNumber s
  | JsValue.ofJson (JsonValue.jobj _) => JsNumber.nan
  | JsValue.ofJson (JsonValue.jarr es) => arrToNumber (JsonValue.jarr es)

/-- Last binding of a key in an object field list (JSON.parse keeps
the last of duplicate keys). -/
def lookupLast (k : String) : List (String × JsonValue) → Option JsonValue
  | [] => none
  | (k', v) :: rest =>
    match lookupLast k rest with
    | some w => some w
    | none => if k' = k then some v else none

/-- Property read data[k] on a parsed JSON document: on null it throws
a TypeError; on an object it yields the field value, or undefined when
the field is absent; on any other document (number, string, boolean,
array) the named field is absent, yielding undefined.  Only the field
quoteVolume is ever read, so built-in properties of strings and arrays
need not be modelled. -/
def JsonValue.getField : JsonValue → String → Except JsError JsValue
  | JsonValue.jnull, _ => Except.error JsError.typeError
  | JsonValue.jobj fs, k =>
    match lookupLast k fs with
    | some v => Except.ok (JsValue.ofJson v)
    | none => Except.ok JsValue.undef
  | _, _ => Except.ok JsValue.undef

/-- JavaScript division on numbers: NaN is absorbing; infinity over
infinity is NaN; infinity over a finite value keeps or flips its sign;
a finite value over an infinity is 0; a nonzero finite value over zero
is a signed infinity and zero over zero is NaN; otherwise exact
division of the rationals standing in for doubles. -/
def jsDiv : JsNumber → JsNumber → JsNumber
  | JsNumber.nan, _ => JsNumber.nan
  | _, JsNumber.nan => JsNumber.nan
  | JsNumber.posInf, JsNumber.posInf => JsNumber.nan
  | JsNumber.posInf, JsNumber.negInf => JsNumber.nan
  | JsNumber.negInf, JsNumber.posInf => JsNumber.nan
  | JsNumber.negInf, JsNumber.negInf => JsNumber.nan
  | JsNumber.posInf, JsNumber.finite q => if q < 0 then JsNumber.negInf else JsNumber.posInf
  | JsNumber.negInf, JsNumber.finite q => if q < 0 then JsNumber.posInf else JsNumber.negInf
  | JsNumber.finite _, JsNumber.posInf => JsNumber.finite 0
  | JsNumber.finite _, JsNumber.negInf => JsNumber.finite 0
  | JsNumber.finite a, JsNumber.finite b =>
    if b = 0 then
      if a = 0 then JsNumber.nan
      else if 0 < a then JsNumber.posInf else JsNumber.negInf
    else JsNumber.finite (a / b)

/-- Whether a JavaScript number is finite (false on NaN and on the
infinities, as Number.isFinite). -/
def JsNumber.isFinite : JsNumber → Bool
  | JsNumber.finite _ => true
  | _ => false

/-- Two-digit rendering of a remainder below 100. -/
def twoDigits (n : ℕ) : String :=
  (if n < 10 then "0" else "") ++ toString n

/-- toFixed(2) on a nonnegative rational: the integer nearest to one
hundred times the value, ties to the larger, printed with a point
before its last two digits. -/
def fixed2Nonneg (q : ℚ) : String :=
  let n : ℤ := ⌊q * 100 + 1 / 2⌋
  let m : ℕ := n.toNat
  toString (m / 100) ++ "." ++ twoDigits (m % 100)

/-- toFixed(2) on a finite value: a negative value prints a minus sign
and then its negation, as the ECMAScript algorithm does. -/
def fixed2 (q : ℚ) : String :=
  if q < 0 then "-" ++ fixed2Nonneg (-q) else fixed2Nonneg q

/-- Number.prototype.toFixed with two fraction digits: NaN prints NaN,
the infinities print Infinity with their sign, finite values print
with exactly two fraction digits (the exponential fallback of the
ECMAScript algorithm at magnitude 10^21 is outside the modelled
range). -/
def JsNumber.toFixed2 : JsNumber → String
  | JsNumber.nan => "NaN"
  | JsNumber.posInf => "Infinity"
  | JsNumber.negInf => "-Infinity"
  | JsNumber.finite q => fixed2 q

/-- Outcome of one fetch call: a rejected promise (network failure),
or a response with an HTTP status and a body, the body given as the
JSON document it parses to, or none when it is not valid JSON. -/
inductive FetchOutcome : Type
  | networkError : FetchOutcome
  | response : ℕ → Option JsonValue → FetchOutcome

/-- The body of a fetch outcome, forgetting the status; none when the
fetch rejected. -/
def FetchOutcome.bodyOpt : FetchOutcome → Option (Option JsonValue)
  | FetchOutcome.networkError => none
  | FetchOutcome.response _ b => some b

/-- The environment the handler runs against: what each URL answers. -/
structure Env : Type where
  fetchResult : String → FetchOutcome

/-- The fixed endpoint text in front of the symbol. -/
def apiUrlBase : String :=
  "https://api.binance.com/api/v3/ticker/24hr?symbol="

/-- The request URL for a symbol: the endpoint text with the raw input
string appended verbatim. -/
def binanceUrl (symbol : String) : String :=
  apiUrlBase ++ symbol

/-- The literal written to the display element by the catch branch. -/
def errorText : String :=
  "Error fetching data."

/-- The success line written to the display element, from the template
literal of script.js line 14. -/
def displayString (c1 r c2 : String) : String :=
  "1 " ++ c1 ++ " = " ++ r ++ " " ++ c2

/-- The observable trace of one handler invocation: the request URLs
in dispatch order, the writes to the textContent of the display
element in order, and the console.error records. -/
structure HandlerResult : Type where
  requests : List String
  displayWrites : List String
  consoleErrors : List JsError

/-- The click handler of script.js, line by line: fetch the first URL
(stopping in the catch branch if it rejects), then the second, parse
both bodies as JSON (stopping if either is invalid), read quoteVolume
on each document in order (stopping on the TypeError a null document
throws), divide the two values as JavaScript numbers, format with
toFixed(2), and write the template line; every caught error writes the
error literal instead and logs once. -/
def clickHandler (env : Env) (crypto1 crypto2 : String) : HandlerResult :=
  let url1 := binanceUrl crypto1
  match env.fetchResult url1 with
  | FetchOutcome.networkError =>
    { requests := [url1], displayWrites := [errorText],
      consoleErrors := [JsError.fetchRejected] }
  | FetchOutcome.response _ body1 =>
    let url2 := binanceUrl crypto2
    match env.fetchResult url2 with
    | FetchOutcome.networkError =>
      { requests := [url1, url2], displayWrites := [errorText],
        consoleErrors := [JsError.fetchRejected] }
    | FetchOutcome.response _ body2 =>
      match body1 with
      | none =>
        { requests := [url1, url2], displayWrites := [errorText],
          consoleErrors := [JsError.jsonParseError] }
      | some data1 =>
        match body2 with
        | none =>
          { requests := [url1, url2], displayWrites := [errorText],
            consoleErrors := [JsError.jsonParseError] }
        | some data2 =>
          match data1.getField "quoteVolume" with
          | Except.error e =>
            { requests := [url1, url2], displayWrites := [errorText],
              consoleErrors := [e] }
          | Except.ok v1 =>
            match data2.getField "quoteVolume" with
            | Except.error e =>
              { requests := [url1, url2], displayWrites := [errorText],
                consoleErrors := [e] }
            | Except.ok v2 =>
              let r := (jsDiv v1.toNumber v2.toNumber).toFixed2
              { requests := [url1, url2],
                displayWrites := [displayString crypto1 r crypto2],
                consoleErrors := [] }

/-- Helper environments used by witnesses and counterexamples. -/
def envTicker : Env :=
  ⟨fun u =>
    if u = binanceUrl "BTCUSDT" then
      FetchOutcome.response 200 (some (JsonValue.jobj [("quoteVolume", JsonValue.jnum 1000)]))
    else
      FetchOutcome.response 200 (some (JsonValue.jobj [("quoteVolume", JsonValue.jnum 500)]))⟩

/-- Environment answering every URL with HTTP 500 and a valid JSON
body (the empty object). -/
def envStatus500 : Env :=
  ⟨fun _ => FetchOutcome.response 500 (some (JsonValue.jobj []))⟩

/-- Environment answering every URL with HTTP 200 and the same body as
envStatus500. -/
def envStatus200 : Env :=
  ⟨fun _ => FetchOutcome.response 200 (some (JsonValue.jobj []))⟩

/-- Environment answering with a JSON object that has no quoteVolume
field. -/
def envNoVolumeField : Env :=
  ⟨fun _ => FetchOutcome.response 200 (some (JsonValue.jobj [("lastPrice", JsonValue.jstr "17.5")]))⟩

/-- Environment whose first symbol has volume 7 and whose second
symbol has volume 0. -/
def envZeroVolume : Env :=
  ⟨fun u =>
    if u = binanceUrl "BTCUSDT" then
      FetchOutcome.response 200 (some (JsonValue.jobj [("quoteVolume", JsonValue.jnum 7)]))
    else
      FetchOutcome.response 200 (some (JsonValue.jobj [("quoteVolume", JsonValue.jnum 0)]))⟩

/-- Environment answering with HTTP 200 and a body that is not valid
JSON. -/
def envBadJson : Env :=
  ⟨fun _ => FetchOutcome.response 200 none⟩

/-- Environment where every fetch rejects. -/
def envDown : Env :=
  ⟨fun _ => FetchOutcome.networkError⟩

/-- Environment answering every URL with a JSON null body. -/
def envNullDoc : Env :=
  ⟨fun _ => FetchOutcome.response 200 (some JsonValue.jnull)⟩

/-- Environment equal to envNullDoc on the ticker URLs but different
elsewhere. -/
def envNullDocB : Env :=
  ⟨fun u =>
    if u = "other" then FetchOutcome.networkError
    else FetchOutcome.response 200 (some JsonValue.jnull)⟩

/-- The success line never coincides with the error literal: its first
character is the digit 1 while the error literal starts with E. -/
theorem displayString_ne_errorText (c1 r c2 : String) : displayString c1 r c2 ≠ errorText := by
  intro h
  have h1 : (displayString c1 r c2).data.head? = some '1' := rfl
  rw [h] at h1
  exact absurd h1 (by decide)

/-- Claim C6: every invocation writes the textContent of the display
element exactly once, on the success path and on every error path
alike; the embedding records no other mutable state besides the
request trace and the console log. -/
theorem claim_C6_single_display_write (env : Env) (c1 c2 : String) :
    (clickHandler env c1 c2).displayWrites.length = 1 := by
  simp only [clickHandler]
  repeat' split
  all_goals rfl

/-- Claim C7: one invocation dispatches at most one request per symbol
slot and never retries: the request trace is either the first URL
alone or the two URLs once each, in order. -/
theorem claim_C7_no_retries (env : Env) (c1 c2 : String) :
    (clickHandler env c1 c2).requests = [binanceUrl c1] ∨
    (clickHandler env c1 c2).requests = [binanceUrl c1, binanceUrl c2] := by
  simp only [clickHandler]
  repeat' split
  all_goals first | exact Or.inl rfl | exact Or.inr rfl

/-- Claim C8: the two awaited fetches are sequential: when the first
fetch rejects the request trace holds the first URL only, so the
second request is never dispatched, and when the first fetch yields a
response the trace holds the two URLs in order. -/
theorem claim_C8_sequential_requests (env : Env) (c1 c2 : String) :
    (env.fetchResult (binanceUrl c1) = FetchOutcome.networkError →
      (clickHandler env c1 c2).requests = [binanceUrl c1]) ∧
    (env.fetchResult (binanceUrl c1) ≠ FetchOutcome.networkError →
      (clickHandler env c1 c2).requests = [binanceUrl c1, binanceUrl c2]) := by
  constructor
  · intro h
    simp [clickHandler, h]
  · intro h
    simp only [clickHandler]
    repeat' split
    all_goals first | rfl | (exfalso; apply h; assumption)

/-- Claim C9: no input validation happens before dispatch: for every
pair of input strings, the empty string included, the first request
URL is the endpoint text with the raw first string appended verbatim,
and whenever the first fetch yields a response the trace is exactly
the two verbatim URLs; no input is rejected locally. -/
theorem claim_C9_verbatim_urls (env : Env) (c1 c2 : String) :
    (clickHandler env c1 c2).requests.head? = some (apiUrlBase ++ c1) ∧
    (env.fetchResult (binanceUrl c1) ≠ FetchOutcome.networkError →
      (clickHandler env c1 c2).requests = [apiUrlBase ++ c1, apiUrlBase ++ c2]) := by
  constructor
  · simp only [clickHandler]
    repeat' split
    all_goals rfl
  · intro h
    simp only [clickHandler]
    repeat' split
    all_goals first | rfl | (exfalso; apply h; assumption)

/-- Claim C10: the handler is deterministic: two invocations that read
the same input strings and receive the same responses on the two
request URLs produce the same trace, in particular the same display
write. -/
theorem claim_C10_deterministic (env env' : Env) (c1 c2 : String)
    (h1 : env.fetchResult (binanceUrl c1) = env'.fetchResult (binanceUrl c1))
    (h2 : env.fetchResult (binanceUrl c2) = env'.fetchResult (binanceUrl c2)) :
    clickHandler env c1 c2 = clickHandler env' c1 c2 := by
  simp only [clickHandler, h1, h2]

/-- Witness for claim C8 at a concrete input: with the network down
the only request is the first URL. -/
theorem claim_C8_witness :
    (clickHandler envDown "BTCUSDT" "ETHUSDT").requests = [binanceUrl "BTCUSDT"] :=
  (claim_C8_sequential_requests envDown "BTCUSDT" "ETHUSDT").1 rfl

/-- Witness for claim C10 at a concrete input: two environments that
agree on the two ticker URLs but differ on another URL give identical
invocations. -/
theorem claim_C10_witness :
    clickHandler envNullDoc "BTCUSDT" "ETHUSDT" = clickHandler envNullDocB "BTCUSDT" "ETHUSDT" :=
  claim_C10_deterministic envNullDoc envNullDocB "BTCUSDT" "ETHUSDT" rfl rfl

/-- Witness for claim C9 at a concrete input: with two empty input
strings both requests go out, carrying the bare endpoint text. -/
theorem claim_C9_witness :
    (clickHandler envBadJson "" "").requests = [apiUrlBase ++ "", apiUrlBase ++ ""] :=
  (claim_C9_verbatim_urls envBadJson "" "").2 (fun h => FetchOutcome.noConfusion h)

/-- Claim C1: when both fetches resolve, both bodies parse as JSON,
and the two quoteVolume reads coerce to finite numbers vA and vB with
vB nonzero, the handler writes exactly the line 1 A = r B to the
display element, where r is vA / vB formatted with exactly two decimal
places. -/
theorem claim_C1_success_display (env : Env) (c1 c2 : String) (s1 s2 : ℕ)
    (d1 d2 : JsonValue) (v1 v2 : JsValue) (vA vB : ℚ)
    (h1 : env.fetchResult (binanceUrl c1) = FetchOutcome.response s1 (some d1))
    (h2 : env.fetchResult (binanceUrl c2) = FetchOutcome.response s2 (some d2))
    (hg1 : d1.getField "quoteVolume" = Except.ok v1)
    (hg2 : d2.getField "quoteVolume" = Except.ok v2)
    (hn1 : v1.toNumber = JsNumber.finite vA)
    (hn2 : v2.toNumber = JsNumber.finite vB)
    (hvB : vB ≠ 0) :
    (clickHandler env c1 c2).displayWrites = [displayString c1 (fixed2 (vA / vB)) c2] := by
  simp only [clickHandler, h1, h2, hg1, hg2, hn1, hn2, jsDiv, if_neg hvB]
  rfl

/-- Witness for claim C1 at the concrete scenario of the claim: first
volume 1000, second volume 500, display 1 BTCUSDT = 2.00 ETHUSDT. -/
theorem claim_C1_witness :
    (clickHandler envTicker "BTCUSDT" "ETHUSDT").displayWrites = ["1 BTCUSDT = 2.00 ETHUSDT"] := by
  have h := claim_C1_success_display envTicker "BTCUSDT" "ETHUSDT" 200 200
    (JsonValue.jobj [("quoteVolume", JsonValue.jnum 1000)])
    (JsonValue.jobj [("quoteVolume", JsonValue.jnum 500)])
    (JsValue.ofJson (JsonValue.jnum 1000)) (JsValue.ofJson (JsonValue.jnum 500))
    1000 500 rfl rfl rfl rfl rfl rfl (by norm_num)
  rw [h]
  have hq : (1000 : ℚ) / 500 = 2 := by norm_num
  rw [hq]
  have hfl : (⌊(2 : ℚ) * 100 + 1 / 2⌋ : ℤ) = 200 := by norm_num
  rw [show fixed2 2 = "2.00" from by
    simp only [fixed2, fixed2Nonneg, hfl]
    norm_num
    rfl]
  rfl

/-- Counterexample to claim C2 as stated: an invocation in which both
responses carry the non-success status 500 with a valid JSON body (the
empty object) does not show the error message; the handler never
inspects the status and instead displays 1 BTCUSDT = NaN ETHUSDT. -/
theorem claim_C2_counterexample :
    (clickHandler envStatus500 "BTCUSDT" "ETHUSDT").displayWrites = ["1 BTCUSDT = NaN ETHUSDT"] ∧
    (clickHandler envStatus500 "BTCUSDT" "ETHUSDT").displayWrites ≠ [errorText] := by
  constructor
  · rfl
  · decide

/-- Claim C2 as amended: the HTTP status is never read: two
invocations whose responses on the two request URLs have the same
bodies (and reject alike) behave identically whatever their statuses,
so a non-success status alone never produces the error message; the
error message comes only from a rejected fetch, a body that is not
valid JSON, or a JSON null body. -/
theorem claim_C2_status_never_read (env env' : Env) (c1 c2 : String)
    (hb1 : (env.fetchResult (binanceUrl c1)).bodyOpt = (env'.fetchResult (binanceUrl c1)).bodyOpt)
    (hb2 : (env.fetchResult (binanceUrl c2)).bodyOpt = (env'.fetchResult (binanceUrl c2)).bodyOpt) :
    clickHandler env c1 c2 = clickHandler env' c1 c2 := by
  cases h1 : env.fetchResult (binanceUrl c1) with
  | networkError =>
    cases h1' : env'.fetchResult (binanceUrl c1) with
    | networkError => simp only [clickHandler, h1, h1']
    | response s b => rw [h1, h1'] at hb1; simp [FetchOutcome.bodyOpt] at hb1
  | response s b1 =>
    cases h1' : env'.fetchResult (binanceUrl c1) with
    | networkError => rw [h1, h1'] at hb1; simp [FetchOutcome.bodyOpt] at hb1
    | response s' b1' =>
      have hb : b1 = b1' := by rw [h1, h1'] at hb1; simpa [FetchOutcome.bodyOpt] using hb1
      subst hb
      cases h2 : env.fetchResult (binanceUrl c2) with
      | networkError =>
        cases h2' : env'.fetchResult (binanceUrl c2) with
        | networkError => simp only [clickHandler, h1, h1', h2, h2']
        | response t b => rw [h2, h2'] at hb2; simp [FetchOutcome.bodyOpt] at hb2
      | response t b2 =>
        cases h2' : env'.fetchResult (binanceUrl c2) with
        | networkError => rw [h2, h2'] at hb2; simp [FetchOutcome.bodyOpt] at hb2
        | response t' b2' =>
          have hb' : b2 = b2' := by rw [h2, h2'] at hb2; simpa [FetchOutcome.bodyOpt] using hb2
          subst hb'
          simp only [clickHandler, h1, h1', h2, h2']

/-- Witness for the amended claim C2 at a concrete input: a status 500
environment and a status 200 environment with the same bodies give
identical invocations. -/
theorem claim_C2_witness :
    clickHandler envStatus500 "XRPUSDT" "BNBUSDT" = clickHandler envStatus200 "XRPUSDT" "BNBUSDT" :=
  claim_C2_status_never_read envStatus500 envStatus200 "XRPUSDT" "BNBUSDT" rfl rfl

/-- Counterexample to claim C3 as stated: an invocation in which both
parsed responses are objects without a quoteVolume field does not show
the generic error string; the undefined reads divide to NaN and the
handler displays 1 BTCUSDT = NaN ETHUSDT. -/
theorem claim_C3_counterexample :
    (clickHandler envNoVolumeField "BTCUSDT" "ETHUSDT").displayWrites = ["1 BTCUSDT = NaN ETHUSDT"] ∧
    (clickHandler envNoVolumeField "BTCUSDT" "ETHUSDT").displayWrites ≠ [errorText] := by
  constructor
  · rfl
  · decide

/-- Claim C3 as amended: when both documents admit the property read
(both fetches resolved with valid JSON and neither document is JSON
null) and either quoteVolume read coerces to NaN, because the field is
absent or because its value is not numeric, the handler does not show
the error message: the NaN propagates through the division and the
display reads 1 A = NaN B.  Only a JSON null document makes the
property read itself throw and produce the error message. -/
theorem claim_C3_nan_not_error (env : Env) (c1 c2 : String) (s1 s2 : ℕ)
    (d1 d2 : JsonValue) (v1 v2 : JsValue)
    (h1 : env.fetchResult (binanceUrl c1) = FetchOutcome.response s1 (some d1))
    (h2 : env.fetchResult (binanceUrl c2) = FetchOutcome.response s2 (some d2))
    (hg1 : d1.getField "quoteVolume" = Except.ok v1)
    (hg2 : d2.getField "quoteVolume" = Except.ok v2)
    (hn : v1.toNumber = JsNumber.nan ∨ v2.toNumber = JsNumber.nan) :
    (clickHandler env c1 c2).displayWrites = [displayString c1 "NaN" c2] ∧
    (clickHandler env c1 c2).displayWrites ≠ [errorText] := by
  have key : (jsDiv v1.toNumber v2.toNumber).toFixed2 = "NaN" := by
    rcases hn with hn | hn
    · rw [hn]; cases v2.toNumber <;> rfl
    · rw [hn]; cases v1.toNumber <;> rfl
  constructor
  · simp only [clickHandler, h1, h2, hg1, hg2, key]
  · simp only [clickHandler, h1, h2, hg1, hg2, key]
    intro hEq
    injection hEq with h' _
    exact displayString_ne_errorText c1 "NaN" c2 h'

/-- Witness for the amended claim C3 at a concrete input: objects
without a quoteVolume field make the display read 1 AAA = NaN BBB, not
the error message. -/
theorem claim_C3_witness :
    (clickHandler envNoVolumeField "AAA" "BBB").displayWrites = [displayString "AAA" "NaN" "BBB"] ∧
    (clickHandler envNoVolumeField "AAA" "BBB").displayWrites ≠ [errorText] :=
  claim_C3_nan_not_error envNoVolumeField "AAA" "BBB" 200 200
    (JsonValue.jobj [("lastPrice", JsonValue.jstr "17.5")])
    (JsonValue.jobj [("lastPrice", JsonValue.jstr "17.5")])
    JsValue.undef JsValue.undef rfl rfl rfl rfl (Or.inl rfl)

/-- Claim C4: when the second quoteVolume coerces to zero the division
is not specially handled: the quotient is a non-finite JavaScript
number, its toFixed(2) rendering flows into the displayed line, and
the generic error message is not shown. -/
theorem claim_C4_zero_volume (env : Env) (c1 c2 : String) (s1 s2 : ℕ)
    (d1 d2 : JsonValue) (v1 v2 : JsValue) (vA : ℚ)
    (h1 : env.fetchResult (binanceUrl c1) = FetchOutcome.response s1 (some d1))
    (h2 : env.fetchResult (binanceUrl c2) = FetchOutcome.response s2 (some d2))
    (hg1 : d1.getField "quoteVolume" = Except.ok v1)
    (hg2 : d2.getField "quoteVolume" = Except.ok v2)
    (hn1 : v1.toNumber = JsNumber.finite vA)
    (hn2 : v2.toNumber = JsNumber.finite 0) :
    (jsDiv (JsNumber.finite vA) (JsNumber.finite 0)).isFinite = false ∧
    (clickHandler env c1 c2).displayWrites =
      [displayString c1 (jsDiv (JsNumber.finite vA) (JsNumber.finite 0)).toFixed2 c2] ∧
    (clickHandler env c1 c2).displayWrites ≠ [errorText] := by
  refine ⟨?_, ?_, ?_⟩
  · by_cases hA : vA = 0
    · simp [jsDiv, hA, JsNumber.isFinite]
    · by_cases hA' : 0 < vA
      · simp [jsDiv, hA, hA', JsNumber.isFinite]
      · simp [jsDiv, hA, hA', JsNumber.isFinite]
  · simp only [clickHandler, h1, h2, hg1, hg2, hn1, hn2]
  · simp only [clickHandler, h1, h2, hg1, hg2, hn1, hn2]
    intro hEq
    injection hEq with h' _
    exact displayString_ne_errorText c1 _ c2 h'

/-- Witness for claim C4 at a concrete input: volumes 7 and 0 give a
non-finite quotient whose rendering reaches the display and the error
message does not appear. -/
theorem claim_C4_witness :
    (jsDiv (JsNumber.finite 7) (JsNumber.finite 0)).isFinite = false ∧
    (clickHandler envZeroVolume "BTCUSDT" "ETHUSDT").displayWrites =
      [displayString "BTCUSDT" (jsDiv (JsNumber.finite 7) (JsNumber.finite 0)).toFixed2 "ETHUSDT"] ∧
    (clickHandler envZeroVolume "BTCUSDT" "ETHUSDT").displayWrites ≠ [errorText] :=
  claim_C4_zero_volume envZeroVolume "BTCUSDT" "ETHUSDT" 200 200
    (JsonValue.jobj [("quoteVolume", JsonValue.jnum 7)])
    (JsonValue.jobj [("quoteVolume", JsonValue.jnum 0)])
    (JsValue.ofJson (JsonValue.jnum 7)) (JsValue.ofJson (JsonValue.jnum 0))
    7 rfl rfl rfl rfl rfl rfl

/-- Claim C5: when either response body is not valid JSON, the await
of response.json() rejects and the display element is set to exactly
the error literal. -/
theorem claim_C5_invalid_json (env : Env) (c1 c2 : String)
    (h : (∃ s, env.fetchResult (binanceUrl c1) = FetchOutcome.response s none) ∨
         (∃ s d t, env.fetchResult (binanceUrl c1) = FetchOutcome.response s (some d) ∧
                   env.fetchResult (binanceUrl c2) = FetchOutcome.response t none)) :
    (clickHandler env c1 c2).displayWrites = [errorText] := by
  rcases h with ⟨s, h1⟩ | ⟨s, d, t, h1, h2⟩
  · simp only [clickHandler, h1]
    repeat' split
    all_goals rfl
  · simp only [clickHandler, h1, h2]

/-- Witness for claim C5 at a concrete input: a body that is not valid
JSON makes the display show the error literal. -/
theorem claim_C5_witness :
    (clickHandler envBadJson "BTCUSDT" "ETHUSDT").displayWrites = [errorText] :=
  claim_C5_invalid_json envBadJson "BTCUSDT" "ETHUSDT" (Or.inl ⟨200, rfl⟩)
